import Mathlib

/-!
# config-go: refresh / cache / accessor core

A shallow embedding of `config.go` (package `config`).

* Go's `interface{}` values are the inductive `Value`; a `map[string]interface{}`
  is `GoMap` (`none` is the nil map).
* Go's `(T, error)` results of this package are pairs `T × Option Error`
  (`none` is the nil error).
* A call that can abort returns an `Outcome`: either `ret v` or `panic msg`.
  Stateful methods return the state after the call next to the outcome, so the
  writes made before a panic stay visible.
* `net/http` and `encoding/json` are the fields of `Env`; nothing is assumed
  about them.
* The embedding is sequential: the `sync.RWMutex` of `Client` is free on entry of
  every method and released before it returns, so it carries no state here.
-/

namespace Config

/-! ## Data model -/

/-- Dynamic value held by an `interface{}`: what `encoding/json` decodes into
(`nil`, `bool`, `float64`, `string`, `[]interface{}`, `map[string]interface{}`)
and, as `other`, a value of any further Go type. -/
inductive Value where
  | nil
  | bool (b : Bool)
  | number (float64bits : Nat)
  | string (s : String)
  | array (items : List Value)
  | object (fields : List (String × Value))
  | other (typeId : Nat)

/-- Go `map[string]interface{}`; `none` is the nil map. -/
abbrev GoMap := Option (List (String × Value))

/-- Go `raw, ok := m[key]`: reading a nil map or a missing key gives the zero
value and `false`. -/
def mapIndex (m : GoMap) (key : String) : Value × Bool :=
  match m with
  | none => (Value.nil, false)
  | some kvs =>
    match kvs.lookup key with
    | some v => (v, true)
    | none => (Value.nil, false)

/-- Go `val, ok := raw.(bool)`. -/
def assertBool : Value → Bool × Bool
  | Value.bool b => (b, true)
  | _ => (false, false)

/-- Go `val, ok := raw.(string)`. -/
def assertString : Value → String × Bool
  | Value.string s => (s, true)
  | _ => ("", false)

/-- Go `error` values: those handed back by `net/http`, `ioutil` and
`encoding/json` (`external`), and those built by `fmt.Errorf` with one integer
argument (`errorf`). -/
inductive Error where
  | external (msg : String)
  | errorf (format : String) (arg : Int)
  deriving DecidableEq

/-- Go `fmt.Sprintf(format, arg)` for one integer argument: every `%d` of the
format is replaced by the decimal text of the argument. -/
def sprintfD : List Char → Int → List Char
  | '%' :: 'd' :: rest, arg => (toString arg).data ++ sprintfD rest arg
  | ch :: rest, arg => ch :: sprintfD rest arg
  | [], _ => []

/-- Text of `err.Error()`. -/
def Error.message : Error → String
  | Error.external msg => msg
  | Error.errorf format arg => String.mk (sprintfD format.data arg)

/-- Result of a call that may abort the goroutine. -/
inductive Outcome (α : Type) where
  | ret (v : α)
  | panic (msg : String)

/-- Go `time.Duration`, in nanoseconds. -/
abbrev Duration := Int

/-- Go `time.Second`. -/
def Second : Duration := 1000000000

/-- Go `*time.Ticker`: its period and whether `Stop` was called on it. -/
structure Ticker where
  d : Duration
  stopped : Bool
  deriving DecidableEq

/-- Identity of a `func(error)` value. The function is code of the caller: a call of
it is recorded in `Sys.handled`, and it is taken to return without calling back
into the client. -/
abbrev Handler := Nat

/-- The function `defaultErrorHandler`. -/
def defaultErrorHandler : Handler := 0

/-- Go `struct Client`; `none` in `ErrorHandler`, `ErrorC` and `ticker` is nil. -/
structure Client where
  Host : String
  APIKey : String
  ErrorC : Option Nat
  Timeout : Duration
  ErrorHandler : Option Handler
  ticker : Option Ticker
  cache : GoMap
  ready : Bool

/-- A client with what its methods do outside of it: the calls made to error
handlers, in order, and the number of polling goroutines launched. -/
structure Sys where
  client : Client
  handled : List (Handler × Error)
  pollers : Nat

/-! ## Collaborators -/

/-- Go `*http.Request`, as far as `fetch` builds it. -/
structure Request where
  Method : String
  URL : String
  Header : List (String × String)

/-- Go `res.Body`, given by what `ioutil.ReadAll` returns on it. -/
structure Body where
  data : List Nat
  err : Option Error

/-- Go `*http.Response`. -/
structure Response where
  StatusCode : Int
  Body : Body

/-- The world a `fetch` runs in: `http.NewRequest` (method, url, nil body),
`(*http.Client).Do`, and `json.Unmarshal` (the bytes and the value of `data` before the
call; returns the value of `data` after the call and the error). -/
structure Env where
  NewRequest : String → String → Except Error Request
  Do : Request → Except Error Response
  Unmarshal : List Nat → GoMap → GoMap × Option Error

/-- Go `ioutil.ReadAll(res.Body)`. -/
def ioutil_ReadAll (b : Body) : List Nat × Option Error :=
  (b.data, b.err)

/-- Go `validHeaderFieldByte`: the characters a header key may be made of. -/
def validHeaderFieldByte (ch : Char) : Bool :=
  ch.isAlphanum || "!#$%&*+-.^_|~".data.contains ch || ch.toNat = 39 || ch.toNat = 96

/-- Letter case of a canonical header key: upper case at the start and after each
`-`, lower case elsewhere. -/
def canonicalChars : Bool → List Char → List Char
  | _, [] => []
  | upper, ch :: rest =>
    (if upper then ch.toUpper else ch.toLower) :: canonicalChars (ch = '-') rest

/-- Go `textproto.CanonicalMIMEHeaderKey(key)`: a key with a character that is not
valid in a header key is returned unchanged. -/
def textproto_CanonicalMIMEHeaderKey (key : String) : String :=
  if key.data.all validHeaderFieldByte then String.mk (canonicalChars true key.data)
  else key

/-- Go `req.Header.Add(key, value)`: one more value under the canonical form of
the key. -/
def Request.headerAdd (req : Request) (key value : String) : Request :=
  { req with Header := req.Header ++ [(textproto_CanonicalMIMEHeaderKey key, value)] }

/-- Go `time.NewTicker(d)`: aborts on a non-positive period. -/
def time_NewTicker (d : Duration) : Outcome Ticker :=
  if d ≤ 0 then Outcome.panic "non-positive interval for NewTicker"
  else Outcome.ret { d := d, stopped := false }

/-- Message of the run-time abort on a nil pointer or nil function value. -/
def nilDereference : String :=
  "runtime error: invalid memory address or nil pointer dereference"

/-! ## Operations -/

/-- Go `NewClient(apikey)`. -/
def NewClient (apikey : String) : Client × Option Error :=
  ({ Host := "https://api.config.maji.cloud"
     APIKey := apikey
     ErrorC := none
     Timeout := 5 * Second
     ErrorHandler := some defaultErrorHandler
     ticker := none
     cache := none
     ready := false }, none)

/-- Go `(c *Client) fetch()`. -/
def fetch (env : Env) (c : Client) : GoMap × Option Error :=
  match env.NewRequest "GET" (c.Host ++ "/getConfig") with
  | Except.error err => (none, some err)
  | Except.ok req =>
    match env.Do (req.headerAdd "authorization" ("bearer " ++ c.APIKey)) with
    | Except.error err => (none, some err)
    | Except.ok res =>
      if res.StatusCode ≠ 200 then
        (none, some (Error.errorf "config: %d response" res.StatusCode))
      else
        match ioutil_ReadAll res.Body with
        | (_, some err) => (none, some err)
        | (body, none) =>
          match env.Unmarshal body none with
          | (_, some err) => (none, some err)
          | (data, none) => (data, none)

/-- Go `(c *Client) Start()`. -/
def Start (env : Env) (s : Sys) : Sys × Outcome (Option Error) :=
  match fetch env s.client with
  | (_, some err) => (s, Outcome.ret (some err))
  | (data, none) =>
    let c1 : Client := { s.client with cache := data, ready := true }
    match time_NewTicker c1.Timeout with
    | Outcome.panic msg => ({ s with client := c1 }, Outcome.panic msg)
    | Outcome.ret t =>
      ({ s with client := { c1 with ticker := some t }, pollers := s.pollers + 1 },
        Outcome.ret none)

/-- Go `(c *Client) Stop()`. -/
def Stop (s : Sys) : Sys × Outcome Unit :=
  match s.client.ticker with
  | none => (s, Outcome.panic nilDereference)
  | some t =>
    ({ s with client := { s.client with ticker := some { t with stopped := true } } },
      Outcome.ret ())

/-- Go `(c *Client) loop()`: one refresh tick. -/
def loop (env : Env) (s : Sys) : Sys × Outcome Unit :=
  match fetch env s.client with
  | (_, some err) =>
    match s.client.ErrorHandler with
    | none => (s, Outcome.panic nilDereference)
    | some h => ({ s with handled := s.handled ++ [(h, err)] }, Outcome.ret ())
  | (data, none) => ({ s with client := { s.client with cache := data } }, Outcome.ret ())

/-- Go `(c *Client) get(key)`. -/
def get (c : Client) (key : String) : Outcome (Value × Bool) :=
  if !c.ready then Outcome.panic "config: not prepared"
  else Outcome.ret (mapIndex c.cache key)

/-- Go `(c *Client) GetBoolean(key)`. -/
def GetBoolean (c : Client) (key : String) : Outcome (Bool × Bool) :=
  match get c key with
  | Outcome.panic msg => Outcome.panic msg
  | Outcome.ret (raw, ok) =>
    if !ok then Outcome.ret (false, false)
    else Outcome.ret (assertBool raw)

/-- Go `(c *Client) GetString(key)`. -/
def GetString (c : Client) (key : String) : Outcome (String × Bool) :=
  match get c key with
  | Outcome.panic msg => Outcome.panic msg
  | Outcome.ret (raw, ok) =>
    if !ok then Outcome.ret ("", false)
    else Outcome.ret (assertString raw)

/-! ## Predicates on the data model -/

/-- A key the map holds, with its value. -/
def GoMap.maps (m : GoMap) (key : String) (v : Value) : Prop :=
  mapIndex m key = (v, true)

/-- A key the map does not hold (always so for the nil map). -/
def GoMap.absent (m : GoMap) (key : String) : Prop :=
  (mapIndex m key).2 = false

/-- The dynamic type of the value is `bool`. -/
def Value.isBool : Value → Bool
  | Value.bool _ => true
  | _ => false

/-- The dynamic type of the value is `string`. -/
def Value.isString : Value → Bool
  | Value.string _ => true
  | _ => false

/-- The client is polling: it holds a ticker that was not stopped. -/
def Client.started (c : Client) : Bool :=
  match c.ticker with
  | some t => !t.stopped
  | none => false

/-- The state right after `NewClient(apikey)`: nothing handled, nothing launched. -/
def created (apikey : String) : Sys :=
  { client := (NewClient apikey).1, handled := [], pollers := 0 }

/-! ## Histories of calls -/

/-- One thing that happens to a client: a call of a method (with the world its
fetch runs in), or an assignment to an exported field. -/
inductive Op where
  | start (env : Env)
  | stop
  | tick (env : Env)
  | get (key : String)
  | getBoolean (key : String)
  | getString (key : String)
  | setHost (host : String)
  | setAPIKey (apikey : String)
  | setTimeout (d : Duration)
  | setErrorHandler (h : Option Handler)

/-- State after one operation; a call that aborts leaves the state it had reached. -/
def step (s : Sys) : Op → Sys
  | Op.start env => (Start env s).1
  | Op.stop => (Stop s).1
  | Op.tick env => (loop env s).1
  | Op.get _ => s
  | Op.getBoolean _ => s
  | Op.getString _ => s
  | Op.setHost host => { s with client := { s.client with Host := host } }
  | Op.setAPIKey apikey => { s with client := { s.client with APIKey := apikey } }
  | Op.setTimeout d => { s with client := { s.client with Timeout := d } }
  | Op.setErrorHandler h => { s with client := { s.client with ErrorHandler := h } }

/-- State after a history of operations. -/
def run (s : Sys) (ops : List Op) : Sys :=
  ops.foldl step s

/-- The operation is a `Start` whose fetch succeeds in state `s`. -/
def startFetched (s : Sys) : Op → Bool
  | Op.start env => (fetch env s.client).2.isNone
  | _ => false

/-- Some `Start` of the history, run from `s`, had a successful fetch. -/
def anyStartFetched (s : Sys) : List Op → Bool
  | [] => false
  | op :: ops => startFetched s op || anyStartFetched (step s op) ops

/-! ## Sample worlds and clients -/

/-- A request as `http.NewRequest` hands it back. -/
def sampleNewRequest (method url : String) : Except Error Request :=
  Except.ok { Method := method, URL := url, Header := [] }

/-- A decoder for three bodies: `[1]` is the object with `foo` = `"bar"`, `[2]` the
one with `str`, `true` and `false`, `[3]` the one with `qux` = `"mux"`; everything
else, the empty body included, is rejected with some data left behind. -/
def sampleUnmarshal (body : List Nat) (_data : GoMap) : GoMap × Option Error :=
  if body = [1] then (some [("foo", Value.string "bar")], none)
  else if body = [2] then
    (some [("str", Value.string "hello"), ("true", Value.bool true),
      ("false", Value.bool false)], none)
  else if body = [3] then (some [("qux", Value.string "mux")], none)
  else (some [], some (Error.external "unexpected end of JSON input"))

/-- A server that answers every request with the given status and body. -/
def serverEnv (status : Int) (body : List Nat) : Env :=
  { NewRequest := sampleNewRequest
    Do := fun _ => Except.ok { StatusCode := status, Body := { data := body, err := none } }
    Unmarshal := sampleUnmarshal }

/-- A host that cannot be reached. -/
def downEnv : Env :=
  { NewRequest := sampleNewRequest
    Do := fun _ => Except.error (Error.external "connection refused")
    Unmarshal := sampleUnmarshal }

/-- A ready client whose cache is the second sample object. -/
def sampleReady : Client :=
  { (NewClient "XXX").1 with
    cache := some [("str", Value.string "hello"), ("true", Value.bool true),
      ("false", Value.bool false)]
    ready := true }

/-- The client of `TestLoopSuccess`: fresh, with `qux` put in its cache. -/
def sampleLoopClient : Sys :=
  { created "XXX" with
    client := { (NewClient "XXX").1 with cache := some [("qux", Value.string "mux")] } }

/-! ## Facts about the data model -/

theorem mapIndex_cases (m : GoMap) (key : String) :
    (∃ v, mapIndex m key = (v, true)) ∨ mapIndex m key = (Value.nil, false) := by
  unfold mapIndex
  cases m with
  | none => exact Or.inr rfl
  | some kvs =>
    cases h : kvs.lookup key with
    | none => right; simp [h]
    | some v => left; exact ⟨v, by simp [h]⟩

theorem get_ready (c : Client) (key : String) (h : c.ready = true) :
    get c key = Outcome.ret (mapIndex c.cache key) := by
  simp [get, h]

theorem get_not_ready (c : Client) (key : String) (h : c.ready = false) :
    get c key = Outcome.panic "config: not prepared" := by
  simp [get, h]

theorem getBoolean_of_absent (c : Client) (key : String) (hready : c.ready = true)
    (ha : GoMap.absent c.cache key) : GetBoolean c key = Outcome.ret (false, false) := by
  unfold GoMap.absent at ha
  rcases hm : mapIndex c.cache key with ⟨raw, ok⟩
  rw [hm] at ha
  simp only at ha
  subst ha
  simp [GetBoolean, get_ready c key hready, hm]

theorem getString_of_absent (c : Client) (key : String) (hready : c.ready = true)
    (ha : GoMap.absent c.cache key) : GetString c key = Outcome.ret ("", false) := by
  unfold GoMap.absent at ha
  rcases hm : mapIndex c.cache key with ⟨raw, ok⟩
  rw [hm] at ha
  simp only at ha
  subst ha
  simp [GetString, get_ready c key hready, hm]

theorem getBoolean_not_ready (c : Client) (key : String) (h : c.ready = false) :
    GetBoolean c key = Outcome.panic "config: not prepared" := by
  simp [GetBoolean, get_not_ready c key h]

theorem getString_not_ready (c : Client) (key : String) (h : c.ready = false) :
    GetString c key = Outcome.panic "config: not prepared" := by
  simp [GetString, get_not_ready c key h]

/-! ## Typed accessors -/

/-- C1: on a ready client `GetBoolean(key)` returns `(b, true)` when the cache maps
`key` to the boolean `b`, and `(false, false)` when the key is absent or maps to
a value that is not a boolean. -/
theorem getBoolean_contract (c : Client) (key : String) (hready : c.ready = true) :
    (∀ b, GoMap.maps c.cache key (Value.bool b) →
        GetBoolean c key = Outcome.ret (b, true)) ∧
    (GoMap.absent c.cache key → GetBoolean c key = Outcome.ret (false, false)) ∧
    (∀ v, GoMap.maps c.cache key v → v.isBool = false →
        GetBoolean c key = Outcome.ret (false, false)) := by
  refine ⟨?_, ?_, ?_⟩
  · intro b hb
    unfold GoMap.maps at hb
    simp [GetBoolean, get_ready c key hready, hb, assertBool]
  · exact getBoolean_of_absent c key hready
  · intro v hv hnb
    unfold GoMap.maps at hv
    cases v <;> simp_all [GetBoolean, get_ready c key hready, assertBool, Value.isBool]

/-- The accessor contract of C1 at the cache of `TestGetBoolean`. -/
theorem getBoolean_contract_witness :
    sampleReady.ready = true ∧
    GetBoolean sampleReady "true" = Outcome.ret (true, true) ∧
    GetBoolean sampleReady "false" = Outcome.ret (false, true) ∧
    GetBoolean sampleReady "not real" = Outcome.ret (false, false) ∧
    GetBoolean sampleReady "str" = Outcome.ret (false, false) :=
  ⟨rfl,
    (getBoolean_contract sampleReady "true" rfl).1 true rfl,
    (getBoolean_contract sampleReady "false" rfl).1 false rfl,
    (getBoolean_contract sampleReady "not real" rfl).2.1 rfl,
    (getBoolean_contract sampleReady "str" rfl).2.2 (Value.string "hello") rfl rfl⟩

/-- C2: on a ready client `GetString(key)` returns `(s, true)` when the cache maps
`key` to the string `s`, and `("", false)` when the key is absent or maps to a
value that is not a string. -/
theorem getString_contract (c : Client) (key : String) (hready : c.ready = true) :
    (∀ str, GoMap.maps c.cache key (Value.string str) →
        GetString c key = Outcome.ret (str, true)) ∧
    (GoMap.absent c.cache key → GetString c key = Outcome.ret ("", false)) ∧
    (∀ v, GoMap.maps c.cache key v → v.isString = false →
        GetString c key = Outcome.ret ("", false)) := by
  refine ⟨?_, ?_, ?_⟩
  · intro str hs
    unfold GoMap.maps at hs
    simp [GetString, get_ready c key hready, hs, assertString]
  · exact getString_of_absent c key hready
  · intro v hv hns
    unfold GoMap.maps at hv
    cases v <;> simp_all [GetString, get_ready c key hready, assertString, Value.isString]

/-- The accessor contract of C2 at the cache of `TestGetString`. -/
theorem getString_contract_witness :
    sampleReady.ready = true ∧
    GetString sampleReady "str" = Outcome.ret ("hello", true) ∧
    GetString sampleReady "not real" = Outcome.ret ("", false) ∧
    GetString sampleReady "true" = Outcome.ret ("", false) :=
  ⟨rfl,
    (getString_contract sampleReady "str" rfl).1 "hello" rfl,
    (getString_contract sampleReady "not real" rfl).2.1 rfl,
    (getString_contract sampleReady "true" rfl).2.2 (Value.bool true) rfl rfl⟩

/-- C9: on a client that is not ready `get`, `GetBoolean` and `GetString` abort
with "config: not prepared" for every key and cache; on a ready client each of
them returns a result for every key and cache, the nil cache included. -/
theorem accessors_abort_iff_not_ready (c : Client) (key : String) :
    (c.ready = false →
      get c key = Outcome.panic "config: not prepared" ∧
      GetBoolean c key = Outcome.panic "config: not prepared" ∧
      GetString c key = Outcome.panic "config: not prepared") ∧
    (c.ready = true →
      (∃ r, get c key = Outcome.ret r) ∧
      (∃ r, GetBoolean c key = Outcome.ret r) ∧
      (∃ r, GetString c key = Outcome.ret r)) := by
  constructor
  · intro h
    exact ⟨get_not_ready c key h, getBoolean_not_ready c key h, getString_not_ready c key h⟩
  · intro h
    refine ⟨⟨_, get_ready c key h⟩, ?_, ?_⟩
    · rcases hm : mapIndex c.cache key with ⟨raw, ok⟩
      cases ok <;> simp [GetBoolean, get_ready c key h, hm]
    · rcases hm : mapIndex c.cache key with ⟨raw, ok⟩
      cases ok <;> simp [GetString, get_ready c key h, hm]

/-- C9 at the client of `TestGetNotPrepared`, and at a ready client whose cache is
the nil map. -/
theorem accessors_abort_iff_not_ready_witness :
    ((NewClient "XXX").1.ready = false ∧
      get (NewClient "XXX").1 "foo" = Outcome.panic "config: not prepared" ∧
      GetBoolean (NewClient "XXX").1 "foo" = Outcome.panic "config: not prepared" ∧
      GetString (NewClient "XXX").1 "foo" = Outcome.panic "config: not prepared") ∧
    ({ (NewClient "XXX").1 with ready := true }.ready = true ∧
      (∃ r, get { (NewClient "XXX").1 with ready := true } "foo" = Outcome.ret r) ∧
      (∃ r, GetBoolean { (NewClient "XXX").1 with ready := true } "foo" = Outcome.ret r) ∧
      (∃ r, GetString { (NewClient "XXX").1 with ready := true } "foo" = Outcome.ret r)) :=
  ⟨⟨rfl, (accessors_abort_iff_not_ready (NewClient "XXX").1 "foo").1 rfl⟩,
    ⟨rfl, (accessors_abort_iff_not_ready { (NewClient "XXX").1 with ready := true } "foo").2 rfl⟩⟩

/-! ## Refresh tick -/

/-- C3, as stated, fails on the client of `TestLoopSuccess`: the tick replaces the
cache that held `qux` by the fetched object with `foo`, but the client is not
ready, so `GetString("qux")` and `GetBoolean("qux")` abort instead of reporting
not-found. -/
theorem loop_success_not_found_counterexample :
    fetch (serverEnv 200 [1]) sampleLoopClient.client
      = (some [("foo", Value.string "bar")], none) ∧
    GoMap.maps sampleLoopClient.client.cache "qux" (Value.string "mux") ∧
    GoMap.absent (some [("foo", Value.string "bar")]) "qux" ∧
    (loop (serverEnv 200 [1]) sampleLoopClient).1.client.cache
      = some [("foo", Value.string "bar")] ∧
    GetString (loop (serverEnv 200 [1]) sampleLoopClient).1.client "qux"
      = Outcome.panic "config: not prepared" ∧
    GetBoolean (loop (serverEnv 200 [1]) sampleLoopClient).1.client "qux"
      = Outcome.panic "config: not prepared" ∧
    GetString (loop (serverEnv 200 [1]) sampleLoopClient).1.client "qux"
      ≠ Outcome.ret ("", false) :=
  ⟨rfl, rfl, rfl, rfl, rfl, rfl, fun h => Outcome.noConfusion h⟩

/-- C3, amended: a tick whose fetch succeeds with `m` returns, leaves the cache
equal to `m` exactly and does not touch the readiness flag; on a ready client
every key that `m` does not hold is then reported not-found by `GetString` and
`GetBoolean`, and on a client that is not ready both still abort. -/
theorem loop_success_replaces_cache (env : Env) (s : Sys) (m : GoMap)
    (hfetch : fetch env s.client = (m, none)) :
    (loop env s).2 = Outcome.ret () ∧
    (loop env s).1.client.cache = m ∧
    (loop env s).1.client.ready = s.client.ready ∧
    (s.client.ready = true → ∀ key, GoMap.absent m key →
      GetString (loop env s).1.client key = Outcome.ret ("", false) ∧
      GetBoolean (loop env s).1.client key = Outcome.ret (false, false)) ∧
    (s.client.ready = false → ∀ key,
      GetString (loop env s).1.client key = Outcome.panic "config: not prepared" ∧
      GetBoolean (loop env s).1.client key = Outcome.panic "config: not prepared") := by
  have hl : loop env s = ({ s with client := { s.client with cache := m } }, Outcome.ret ()) := by
    simp [loop, hfetch]
  rw [hl]
  refine ⟨rfl, rfl, rfl, ?_, ?_⟩
  · intro hready key habs
    exact ⟨getString_of_absent { s.client with cache := m } key hready habs,
      getBoolean_of_absent { s.client with cache := m } key hready habs⟩
  · intro hnot key
    exact ⟨getString_not_ready { s.client with cache := m } key hnot,
      getBoolean_not_ready { s.client with cache := m } key hnot⟩

/-- The amended C3 on the two refreshes of the spec: a ready client holding `qux`
fetches the object with `foo`. -/
theorem loop_success_replaces_cache_witness :
    fetch (serverEnv 200 [1]) { sampleLoopClient.client with ready := true }
      = (some [("foo", Value.string "bar")], none) ∧
    (loop (serverEnv 200 [1])
        { sampleLoopClient with client := { sampleLoopClient.client with ready := true } }
      ).1.client.cache = some [("foo", Value.string "bar")] ∧
    GetString (loop (serverEnv 200 [1])
        { sampleLoopClient with client := { sampleLoopClient.client with ready := true } }
      ).1.client "qux" = Outcome.ret ("", false) :=
  ⟨rfl,
    (loop_success_replaces_cache (serverEnv 200 [1])
      { sampleLoopClient with client := { sampleLoopClient.client with ready := true } }
      (some [("foo", Value.string "bar")]) rfl).2.1,
    ((loop_success_replaces_cache (serverEnv 200 [1])
      { sampleLoopClient with client := { sampleLoopClient.client with ready := true } }
      (some [("foo", Value.string "bar")]) rfl).2.2.2.1 rfl "qux" rfl).1⟩

/-- C4, as stated, fails for a client whose `ErrorHandler` was set to nil: the
fetch of the tick fails, the call of the nil function aborts the tick, and no
handler is invoked. -/
theorem loop_failure_nil_handler_counterexample :
    fetch (serverEnv 400 []) (step sampleLoopClient (Op.setErrorHandler none)).client
      = (none, some (Error.errorf "config: %d response" 400)) ∧
    (step sampleLoopClient (Op.setErrorHandler none)).client.ErrorHandler = none ∧
    (loop (serverEnv 400 []) (step sampleLoopClient (Op.setErrorHandler none))).2
      = Outcome.panic nilDereference ∧
    (loop (serverEnv 400 []) (step sampleLoopClient (Op.setErrorHandler none))).2
      ≠ Outcome.ret () ∧
    (loop (serverEnv 400 []) (step sampleLoopClient (Op.setErrorHandler none))).1.handled
      = [] :=
  ⟨rfl, rfl, rfl, fun h => Outcome.noConfusion h, rfl⟩

/-- C4, amended: after a tick whose fetch fails with `e` the cache and the readiness
flag (the whole client, in fact) are what they were before the tick and no
goroutine is launched; when the `ErrorHandler` of the client is not nil the tick
returns and its only effect is one call of that handler, with `e`; when it is nil
the tick aborts on the nil function, with no effect and no handler invoked. -/
theorem loop_failure_keeps_cache (env : Env) (s : Sys) (m : GoMap) (e : Error)
    (hfetch : fetch env s.client = (m, some e)) :
    (loop env s).1.client.cache = s.client.cache ∧
    (loop env s).1.client.ready = s.client.ready ∧
    (loop env s).1.client = s.client ∧
    (loop env s).1.pollers = s.pollers ∧
    (∀ h, s.client.ErrorHandler = some h →
      (loop env s).2 = Outcome.ret () ∧
      (loop env s).1.handled = s.handled ++ [(h, e)] ∧
      loop env s = ({ s with handled := s.handled ++ [(h, e)] }, Outcome.ret ())) ∧
    (s.client.ErrorHandler = none →
      (loop env s).2 = Outcome.panic nilDereference ∧
      (loop env s).1.handled = s.handled ∧
      loop env s = (s, Outcome.panic nilDereference)) := by
  cases hh : s.client.ErrorHandler with
  | none =>
    have hl : loop env s = (s, Outcome.panic nilDereference) := by
      simp [loop, hfetch, hh]
    rw [hl]
    exact ⟨rfl, rfl, rfl, rfl, fun h hsome => Option.noConfusion hsome,
      fun _ => ⟨rfl, rfl, rfl⟩⟩
  | some h0 =>
    have hl : loop env s = ({ s with handled := s.handled ++ [(h0, e)] }, Outcome.ret ()) := by
      simp [loop, hfetch, hh]
    rw [hl]
    refine ⟨rfl, rfl, rfl, rfl, ?_, fun hnone => Option.noConfusion hnone⟩
    intro h hsome
    cases hsome
    exact ⟨rfl, rfl, rfl⟩

/-- The amended C4 at the client of `TestLoopError` (status 400), with `qux` in its
cache and the default handler. -/
theorem loop_failure_keeps_cache_witness :
    fetch (serverEnv 400 []) sampleLoopClient.client
      = (none, some (Error.errorf "config: %d response" 400)) ∧
    (loop (serverEnv 400 []) sampleLoopClient).1.client.cache
      = some [("qux", Value.string "mux")] ∧
    (loop (serverEnv 400 []) sampleLoopClient).1.client.ready = false ∧
    (loop (serverEnv 400 []) sampleLoopClient).2 = Outcome.ret () ∧
    (loop (serverEnv 400 []) sampleLoopClient).1.handled
      = [(defaultErrorHandler, Error.errorf "config: %d response" 400)] :=
  ⟨rfl,
    (loop_failure_keeps_cache (serverEnv 400 []) sampleLoopClient none
      (Error.errorf "config: %d response" 400) rfl).1,
    (loop_failure_keeps_cache (serverEnv 400 []) sampleLoopClient none
      (Error.errorf "config: %d response" 400) rfl).2.1,
    ((loop_failure_keeps_cache (serverEnv 400 []) sampleLoopClient none
      (Error.errorf "config: %d response" 400) rfl).2.2.2.2.1 defaultErrorHandler rfl).1,
    ((loop_failure_keeps_cache (serverEnv 400 []) sampleLoopClient none
      (Error.errorf "config: %d response" 400) rfl).2.2.2.2.1 defaultErrorHandler rfl).2.1⟩

/-! ## Start -/

/-- C5: when the fetch of `Start` fails with `e`, `Start` returns exactly `e` and
leaves the state as it was: the readiness flag, the cache and the ticker are
unchanged (so a client that was not ready stays not ready, and one without a
ticker gets none), and no polling goroutine is launched. -/
theorem start_failure_leaves_client (env : Env) (s : Sys) (m : GoMap) (e : Error)
    (hfetch : fetch env s.client = (m, some e)) :
    (Start env s).2 = Outcome.ret (some e) ∧
    (Start env s).1 = s ∧
    (Start env s).1.client.ready = s.client.ready ∧
    (Start env s).1.client.cache = s.client.cache ∧
    (Start env s).1.client.ticker = s.client.ticker ∧
    (Start env s).1.pollers = s.pollers ∧
    (s.client.ready = false → (Start env s).1.client.ready = false) ∧
    (s.client.ticker = none → (Start env s).1.client.ticker = none) := by
  have hs : Start env s = (s, Outcome.ret (some e)) := by
    simp [Start, hfetch]
  rw [hs]
  exact ⟨rfl, rfl, rfl, rfl, rfl, rfl, id, id⟩

/-- C5 on a fresh client, for a host that is down, a 400 response, and a 200
response with an empty body. -/
theorem start_failure_leaves_client_witness :
    (fetch downEnv (created "XXX").client
        = (none, some (Error.external "connection refused")) ∧
      (Start downEnv (created "XXX")).2
        = Outcome.ret (some (Error.external "connection refused")) ∧
      (Start downEnv (created "XXX")).1.client.ready = false ∧
      (Start downEnv (created "XXX")).1.client.ticker = none) ∧
    (fetch (serverEnv 400 [1]) (created "XXX").client
        = (none, some (Error.errorf "config: %d response" 400)) ∧
      (Start (serverEnv 400 [1]) (created "XXX")).2
        = Outcome.ret (some (Error.errorf "config: %d response" 400)) ∧
      (Start (serverEnv 400 [1]) (created "XXX")).1.client.ready = false) ∧
    (fetch (serverEnv 200 []) (created "XXX").client
        = (none, some (Error.external "unexpected end of JSON input")) ∧
      (Start (serverEnv 200 []) (created "XXX")).2
        = Outcome.ret (some (Error.external "unexpected end of JSON input")) ∧
      (Start (serverEnv 200 []) (created "XXX")).1.client.ready = false) :=
  ⟨⟨rfl,
      (start_failure_leaves_client downEnv (created "XXX") none
        (Error.external "connection refused") rfl).1,
      (start_failure_leaves_client downEnv (created "XXX") none
        (Error.external "connection refused") rfl).2.2.2.2.2.2.1 rfl,
      (start_failure_leaves_client downEnv (created "XXX") none
        (Error.external "connection refused") rfl).2.2.2.2.2.2.2 rfl⟩,
    ⟨rfl,
      (start_failure_leaves_client (serverEnv 400 [1]) (created "XXX") none
        (Error.errorf "config: %d response" 400) rfl).1,
      (start_failure_leaves_client (serverEnv 400 [1]) (created "XXX") none
        (Error.errorf "config: %d response" 400) rfl).2.2.2.2.2.2.1 rfl⟩,
    ⟨rfl,
      (start_failure_leaves_client (serverEnv 200 []) (created "XXX") none
        (Error.external "unexpected end of JSON input") rfl).1,
      (start_failure_leaves_client (serverEnv 200 []) (created "XXX") none
        (Error.external "unexpected end of JSON input") rfl).2.2.2.2.2.2.1 rfl⟩⟩

/-- C6, as stated, fails for a client whose `Timeout` was set to zero: the fetch
succeeds, but `time.NewTicker` aborts on the non-positive period, so `Start` does
not return and no ticker is armed (the cache and the flag were already set). -/
theorem start_success_zero_timeout_counterexample :
    fetch (serverEnv 200 [1]) (step (created "XXX") (Op.setTimeout 0)).client
      = (some [("foo", Value.string "bar")], none) ∧
    (Start (serverEnv 200 [1]) (step (created "XXX") (Op.setTimeout 0))).2
      = Outcome.panic "non-positive interval for NewTicker" ∧
    (Start (serverEnv 200 [1]) (step (created "XXX") (Op.setTimeout 0))).2
      ≠ Outcome.ret none ∧
    (Start (serverEnv 200 [1]) (step (created "XXX") (Op.setTimeout 0))).1.client.ticker
      = none ∧
    (Start (serverEnv 200 [1]) (step (created "XXX") (Op.setTimeout 0))).1.pollers = 0 :=
  ⟨rfl, rfl, fun h => Outcome.noConfusion h, rfl, rfl⟩

/-- C6, amended: when the fetch of `Start` succeeds with `m` and the `Timeout` of
the client is positive, `Start` returns no error, and afterwards the cache is `m`,
the client is ready, it holds a running ticker whose period is that `Timeout`,
and one more polling goroutine is running. -/
theorem start_success_arms_ticker (env : Env) (s : Sys) (m : GoMap)
    (hfetch : fetch env s.client = (m, none)) (htimeout : 0 < s.client.Timeout) :
    (Start env s).2 = Outcome.ret none ∧
    (Start env s).1.client.cache = m ∧
    (Start env s).1.client.ready = true ∧
    (Start env s).1.client.ticker = some { d := s.client.Timeout, stopped := false } ∧
    (Start env s).1.client.started = true ∧
    (Start env s).1.pollers = s.pollers + 1 := by
  have hle : ¬ s.client.Timeout ≤ 0 := not_le.mpr htimeout
  have hs : Start env s =
      ({ s with
          client := { s.client with
            cache := m, ready := true,
            ticker := some { d := s.client.Timeout, stopped := false } }
          pollers := s.pollers + 1 }, Outcome.ret none) := by
    simp [Start, hfetch, time_NewTicker, hle]
  rw [hs]
  exact ⟨rfl, rfl, rfl, rfl, rfl, rfl⟩

/-- The amended C6 at the client of `TestStart`, with its default period. -/
theorem start_success_arms_ticker_witness :
    (fetch (serverEnv 200 [1]) (created "XXX").client
        = (some [("foo", Value.string "bar")], none) ∧
      0 < (created "XXX").client.Timeout) ∧
    (Start (serverEnv 200 [1]) (created "XXX")).2 = Outcome.ret none ∧
    (Start (serverEnv 200 [1]) (created "XXX")).1.client.cache
      = some [("foo", Value.string "bar")] ∧
    (Start (serverEnv 200 [1]) (created "XXX")).1.client.ready = true ∧
    (Start (serverEnv 200 [1]) (created "XXX")).1.client.ticker
      = some { d := 5000000000, stopped := false } :=
  ⟨⟨rfl, by decide⟩,
    (start_success_arms_ticker (serverEnv 200 [1]) (created "XXX")
      (some [("foo", Value.string "bar")]) rfl (by decide)).1,
    (start_success_arms_ticker (serverEnv 200 [1]) (created "XXX")
      (some [("foo", Value.string "bar")]) rfl (by decide)).2.1,
    (start_success_arms_ticker (serverEnv 200 [1]) (created "XXX")
      (some [("foo", Value.string "bar")]) rfl (by decide)).2.2.1,
    (start_success_arms_ticker (serverEnv 200 [1]) (created "XXX")
      (some [("foo", Value.string "bar")]) rfl (by decide)).2.2.2.1⟩

/-! ## Fetch -/

theorem headerAdd_authorization (req : Request) (value : String) :
    (req.headerAdd "authorization" value).Header
      = req.Header ++ [("Authorization", value)] := by
  have hkey : textproto_CanonicalMIMEHeaderKey "authorization" = "Authorization" := by
    decide
  simp [Request.headerAdd, hkey]

theorem statusError_message (code : Int) :
    (Error.errorf "config: %d response" code).message
      = "config: " ++ toString code ++ " response" := by
  apply String.ext
  simp [Error.message, sprintfD]

/-- C7: `fetch` returns a mapping with no error exactly when the request is built,
the transport answers with status 200, the body is read and the decoder accepts
it, and the mapping is then the decoded one; any other status gives the error
built from that status code, whatever the body and the decoder are; an error of
the transport (building the request, sending it, reading the body) or of the
decoder is returned as it is; and whenever the error is not nil the mapping is
nil, whatever the decoder left in it. -/
theorem fetch_contract (env : Env) (c : Client) :
    (∀ m, fetch env c = (m, none) ↔
      ∃ req res, env.NewRequest "GET" (c.Host ++ "/getConfig") = Except.ok req ∧
        env.Do (req.headerAdd "authorization" ("bearer " ++ c.APIKey)) = Except.ok res ∧
        res.StatusCode = 200 ∧ res.Body.err = none ∧
        env.Unmarshal res.Body.data none = (m, none)) ∧
    (∀ req res, env.NewRequest "GET" (c.Host ++ "/getConfig") = Except.ok req →
        env.Do (req.headerAdd "authorization" ("bearer " ++ c.APIKey)) = Except.ok res →
        res.StatusCode ≠ 200 →
        ∀ decoder, fetch { env with Unmarshal := decoder } c
          = (none, some (Error.errorf "config: %d response" res.StatusCode))) ∧
    (∀ e, env.NewRequest "GET" (c.Host ++ "/getConfig") = Except.error e →
        fetch env c = (none, some e)) ∧
    (∀ req e, env.NewRequest "GET" (c.Host ++ "/getConfig") = Except.ok req →
        env.Do (req.headerAdd "authorization" ("bearer " ++ c.APIKey)) = Except.error e →
        fetch env c = (none, some e)) ∧
    (∀ req res e, env.NewRequest "GET" (c.Host ++ "/getConfig") = Except.ok req →
        env.Do (req.headerAdd "authorization" ("bearer " ++ c.APIKey)) = Except.ok res →
        res.StatusCode = 200 → res.Body.err = some e →
        fetch env c = (none, some e)) ∧
    (∀ req res m e, env.NewRequest "GET" (c.Host ++ "/getConfig") = Except.ok req →
        env.Do (req.headerAdd "authorization" ("bearer " ++ c.APIKey)) = Except.ok res →
        res.StatusCode = 200 → res.Body.err = none →
        env.Unmarshal res.Body.data none = (m, some e) →
        fetch env c = (none, some e)) ∧
    ((fetch env c).2 ≠ none → (fetch env c).1 = none) ∧
    (∀ code : Int, (Error.errorf "config: %d response" code).message
      = "config: " ++ toString code ++ " response") := by
  refine ⟨?_, ?_, ?_, ?_, ?_, ?_, ?_, statusError_message⟩
  · intro m
    unfold fetch ioutil_ReadAll
    cases h1 : env.NewRequest "GET" (c.Host ++ "/getConfig") with
    | error e => simp
    | ok req =>
      cases h2 : env.Do (req.headerAdd "authorization" ("bearer " ++ c.APIKey)) with
      | error e => simp [h2]
      | ok res =>
        by_cases h3 : res.StatusCode = 200
        · cases h4 : res.Body.err with
          | some e => simp [h2, h3, h4]
          | none =>
            rcases h5 : env.Unmarshal res.Body.data none with ⟨data, err⟩
            cases err with
            | some e => simp [h2, h3, h4, h5]
            | none => simp [h2, h3, h4, h5]
        · simp [h2, h3]
  · intro req res h1 h2 h3 decoder
    simp [fetch, h1, h2, h3]
  · intro e h1
    simp [fetch, h1]
  · intro req e h1 h2
    simp [fetch, h1, h2]
  · intro req res e h1 h2 h3 h4
    simp [fetch, h1, h2, h3, h4, ioutil_ReadAll]
  · intro req res m e h1 h2 h3 h4 h5
    simp [fetch, h1, h2, h3, h4, h5, ioutil_ReadAll]
  · unfold fetch ioutil_ReadAll
    cases h1 : env.NewRequest "GET" (c.Host ++ "/getConfig") with
    | error e => simp
    | ok req =>
      cases h2 : env.Do (req.headerAdd "authorization" ("bearer " ++ c.APIKey)) with
      | error e => simp [h2]
      | ok res =>
        by_cases h3 : res.StatusCode = 200
        · cases h4 : res.Body.err with
          | some e => simp [h2, h3, h4]
          | none =>
            rcases h5 : env.Unmarshal res.Body.data none with ⟨data, err⟩
            cases err with
            | some e => simp [h2, h3, h4, h5]
            | none => simp [h2, h3, h4, h5]
        · simp [h2, h3]

/-- C7 on the servers of `TestFetch`, `TestFetch400Error` and
`TestFetchEmtpyResponse`, and on a host that is down. -/
theorem fetch_contract_witness :
    fetch (serverEnv 200 [1]) (NewClient "XXX").1
      = (some [("foo", Value.string "bar")], none) ∧
    fetch { serverEnv 400 [1] with Unmarshal := sampleUnmarshal } (NewClient "XXX").1
      = (none, some (Error.errorf "config: %d response" 400)) ∧
    fetch downEnv (NewClient "XXX").1
      = (none, some (Error.external "connection refused")) ∧
    fetch (serverEnv 200 []) (NewClient "XXX").1
      = (none, some (Error.external "unexpected end of JSON input")) :=
  ⟨((fetch_contract (serverEnv 200 [1]) (NewClient "XXX").1).1 _).2
      ⟨{ Method := "GET", URL := "https://api.config.maji.cloud/getConfig", Header := [] },
        { StatusCode := 200, Body := { data := [1], err := none } },
        rfl, rfl, rfl, rfl, rfl⟩,
    (fetch_contract (serverEnv 400 [1]) (NewClient "XXX").1).2.1
      { Method := "GET", URL := "https://api.config.maji.cloud/getConfig", Header := [] }
      { StatusCode := 400, Body := { data := [1], err := none } }
      rfl rfl (by decide) sampleUnmarshal,
    (fetch_contract downEnv (NewClient "XXX").1).2.2.2.1
      { Method := "GET", URL := "https://api.config.maji.cloud/getConfig", Header := [] }
      (Error.external "connection refused") rfl rfl,
    (fetch_contract (serverEnv 200 []) (NewClient "XXX").1).2.2.2.2.2.1
      { Method := "GET", URL := "https://api.config.maji.cloud/getConfig", Header := [] }
      { StatusCode := 200, Body := { data := [], err := none } }
      (some []) (Error.external "unexpected end of JSON input") rfl rfl rfl rfl rfl⟩

/-! ## Readiness over histories -/

theorem step_ready (s : Sys) (op : Op) :
    (step s op).client.ready = (s.client.ready || startFetched s op) := by
  cases op with
  | start env =>
    rcases h : fetch env s.client with ⟨data, err⟩
    cases err with
    | some e => simp [step, Start, startFetched, h]
    | none =>
      by_cases ht : s.client.Timeout ≤ 0 <;>
        simp [step, Start, startFetched, h, time_NewTicker, ht]
  | stop =>
    cases ht : s.client.ticker <;> simp [step, Stop, startFetched, ht]
  | tick env =>
    rcases h : fetch env s.client with ⟨data, err⟩
    cases err with
    | some e =>
      cases hh : s.client.ErrorHandler <;> simp [step, loop, startFetched, h, hh]
    | none => simp [step, loop, startFetched, h]
  | get key => simp [step, startFetched]
  | getBoolean key => simp [step, startFetched]
  | getString key => simp [step, startFetched]
  | setHost host => simp [step, startFetched]
  | setAPIKey apikey => simp [step, startFetched]
  | setTimeout d => simp [step, startFetched]
  | setErrorHandler h => simp [step, startFetched]

theorem run_ready (s : Sys) (ops : List Op) :
    (run s ops).client.ready = (s.client.ready || anyStartFetched s ops) := by
  induction ops generalizing s with
  | nil => simp [run, anyStartFetched]
  | cons op ops ih =>
    have hrun : run s (op :: ops) = run (step s op) ops := rfl
    rw [hrun, ih (step s op), step_ready, anyStartFetched, Bool.or_assoc]

theorem run_append (s : Sys) (ops later : List Op) :
    run s (ops ++ later) = run (run s ops) later := by
  simp [run, List.foldl_append]

/-- C8: a client made by `NewClient` is not ready; after any history of `Start`,
`Stop`, ticks, accessor calls and assignments to the exported fields, in any
worlds, it is ready exactly when some `Start` of the history had a successful
fetch; and once it is ready it is ready after every longer history, whatever
fails or is stopped later. -/
theorem ready_invariant (apikey : String) (ops later : List Op) :
    (created apikey).client.ready = false ∧
    ((run (created apikey) ops).client.ready = true ↔
      anyStartFetched (created apikey) ops = true) ∧
    (anyStartFetched (created apikey) ops = false →
      (run (created apikey) ops).client.ready = false) ∧
    ((run (created apikey) ops).client.ready = true →
      (run (created apikey) (ops ++ later)).client.ready = true) := by
  have h0 : (created apikey).client.ready = false := rfl
  refine ⟨h0, ?_, ?_, ?_⟩
  · rw [run_ready, h0]
    simp
  · intro hno
    rw [run_ready, h0, hno]
    rfl
  · intro hr
    rw [run_append, run_ready, hr]
    rfl

/-- C8 on two histories: one where every fetch of `Start` fails (the tick in
between succeeds), and one where `Start` succeeds and is followed by a failed
tick and `Stop`. -/
theorem ready_invariant_witness :
    (anyStartFetched (created "XXX")
        [Op.tick (serverEnv 200 [1]), Op.start (serverEnv 400 []), Op.getString "foo",
          Op.stop, Op.start downEnv] = false ∧
      (run (created "XXX")
        [Op.tick (serverEnv 200 [1]), Op.start (serverEnv 400 []), Op.getString "foo",
          Op.stop, Op.start downEnv]).client.ready = false) ∧
    ((run (created "XXX") [Op.start (serverEnv 200 [1])]).client.ready = true ∧
      (run (created "XXX")
        ([Op.start (serverEnv 200 [1])] ++ [Op.tick (serverEnv 400 []), Op.stop,
          Op.tick downEnv])).client.ready = true) :=
  ⟨⟨rfl, (ready_invariant "XXX"
      [Op.tick (serverEnv 200 [1]), Op.start (serverEnv 400 []), Op.getString "foo",
        Op.stop, Op.start downEnv] []).2.2.1 rfl⟩,
    ⟨rfl, (ready_invariant "XXX" [Op.start (serverEnv 200 [1])]
      [Op.tick (serverEnv 400 []), Op.stop, Op.tick downEnv]).2.2.2 rfl⟩⟩

/-! ## Lifecycle -/

/-- C10, as stated, fails: on a client that was started and then stopped, a second
`Start` returns no error and arms a running ticker again, and a second polling
goroutine is launched. -/
theorem restart_after_stop_counterexample :
    (Start (serverEnv 200 [1]) (created "XXX")).2 = Outcome.ret none ∧
    (run (created "XXX") [Op.start (serverEnv 200 [1])]).client.started = true ∧
    (Stop (run (created "XXX") [Op.start (serverEnv 200 [1])])).2 = Outcome.ret () ∧
    (run (created "XXX") [Op.start (serverEnv 200 [1]), Op.stop]).client.started = false ∧
    (Start (serverEnv 200 [1])
      (run (created "XXX") [Op.start (serverEnv 200 [1]), Op.stop])).2 = Outcome.ret none ∧
    (run (created "XXX")
      [Op.start (serverEnv 200 [1]), Op.stop, Op.start (serverEnv 200 [1])]).client.ticker
      = some { d := 5 * Second, stopped := false } ∧
    (run (created "XXX")
      [Op.start (serverEnv 200 [1]), Op.stop, Op.start (serverEnv 200 [1])]).client.started
      = true ∧
    (run (created "XXX")
      [Op.start (serverEnv 200 [1]), Op.stop, Op.start (serverEnv 200 [1])]).pollers = 2 :=
  ⟨rfl, rfl, rfl, rfl, rfl, rfl, rfl, rfl⟩

/-- C10, amended: the stopped state is not terminal. On a client that holds a ticker
`Stop` returns, marks that ticker stopped and changes nothing else (cache,
readiness flag, configuration, handled errors and goroutines are kept); a later
`Start` whose fetch succeeds with `m`, on a client with a positive `Timeout`,
returns no error, and its only effects are that the cache is `m`, the client is
ready, it holds a new running ticker of period `Timeout`, and one more polling
goroutine is launched: the same client is polling again. -/
theorem start_after_stop_arms_ticker (env : Env) (s : Sys) (t : Ticker) (m : GoMap)
    (hticker : s.client.ticker = some t)
    (hfetch : fetch env (Stop s).1.client = (m, none))
    (htimeout : 0 < s.client.Timeout) :
    Stop s =
      ({ s with client := { s.client with ticker := some { d := t.d, stopped := true } } },
        Outcome.ret ()) ∧
    (Stop s).1.client.cache = s.client.cache ∧
    (Stop s).1.client.ready = s.client.ready ∧
    (Stop s).1.client.started = false ∧
    Start env (Stop s).1 =
      ({ client := { s.client with
            cache := m, ready := true,
            ticker := some { d := s.client.Timeout, stopped := false } }
         handled := s.handled
         pollers := s.pollers + 1 }, Outcome.ret none) ∧
    (Start env (Stop s).1).2 = Outcome.ret none ∧
    (Start env (Stop s).1).1.client.ticker
      = some { d := s.client.Timeout, stopped := false } ∧
    (Start env (Stop s).1).1.client.started = true ∧
    (Start env (Stop s).1).1.pollers = s.pollers + 1 := by
  have hstop : Stop s =
      ({ s with client := { s.client with ticker := some { d := t.d, stopped := true } } },
        Outcome.ret ()) := by
    simp [Stop, hticker]
  rw [hstop] at hfetch ⊢
  have hle : ¬ s.client.Timeout ≤ 0 := not_le.mpr htimeout
  refine ⟨rfl, rfl, rfl, rfl, ?_, ?_, ?_, ?_, ?_⟩ <;>
    simp [Start, hfetch, time_NewTicker, hle, Client.started]

/-- The amended C10 on a client that was started once with the default period and
holds the object with `foo`: `Stop` keeps the cache, the second `Start` replaces
it and polls again. -/
theorem start_after_stop_arms_ticker_witness :
    ((run (created "XXX") [Op.start (serverEnv 200 [1])]).client.ticker
        = some { d := 5000000000, stopped := false } ∧
      fetch (serverEnv 200 [3])
        (Stop (run (created "XXX") [Op.start (serverEnv 200 [1])])).1.client
        = (some [("qux", Value.string "mux")], none) ∧
      0 < (run (created "XXX") [Op.start (serverEnv 200 [1])]).client.Timeout) ∧
    (Stop (run (created "XXX") [Op.start (serverEnv 200 [1])])).1.client.cache
      = some [("foo", Value.string "bar")] ∧
    (Stop (run (created "XXX") [Op.start (serverEnv 200 [1])])).1.client.ready = true ∧
    (Start (serverEnv 200 [3])
      (Stop (run (created "XXX") [Op.start (serverEnv 200 [1])])).1).2 = Outcome.ret none ∧
    (Start (serverEnv 200 [3])
      (Stop (run (created "XXX") [Op.start (serverEnv 200 [1])])).1).1.client.started
      = true :=
  ⟨⟨rfl, rfl, by decide⟩,
    (start_after_stop_arms_ticker (serverEnv 200 [3])
      (run (created "XXX") [Op.start (serverEnv 200 [1])])
      { d := 5000000000, stopped := false } (some [("qux", Value.string "mux")])
      rfl rfl (by decide)).2.1,
    (start_after_stop_arms_ticker (serverEnv 200 [3])
      (run (created "XXX") [Op.start (serverEnv 200 [1])])
      { d := 5000000000, stopped := false } (some [("qux", Value.string "mux")])
      rfl rfl (by decide)).2.2.1,
    (start_after_stop_arms_ticker (serverEnv 200 [3])
      (run (created "XXX") [Op.start (serverEnv 200 [1])])
      { d := 5000000000, stopped := false } (some [("qux", Value.string "mux")])
      rfl rfl (by decide)).2.2.2.2.2.1,
    (start_after_stop_arms_ticker (serverEnv 200 [3])
      (run (created "XXX") [Op.start (serverEnv 200 [1])])
      { d := 5000000000, stopped := false } (some [("qux", Value.string "mux")])
      rfl rfl (by decide)).2.2.2.2.2.2.2.1⟩

end Config
